import Mathlib

/-!
The global debugging declarations of the SWT native library (`swt.h`).

`swt.h` holds no functions: it is a list of preprocessor directives.  The development
has two layers.

* **Preprocessing.**  The header is transcribed line by line as a list of directives;
  `preprocess` runs the conditional-inclusion directives and collects the definitions,
  and `invoke` replaces one function-like invocation (arity check, then parameter
  substitution).
* **Execution.**  The two replacement lists that are not empty are C statements; each is
  embedded as a Lean function over explicit state: the null guard of lines 34-41 over a
  Java VM reached through the `JNIEnv` function table, and the `fprintf` call of line 28
  over the characters written to `stderr`.
-/

namespace SWT

/-! ## Preprocessing layer -/

/-- A preprocessing token. -/
inductive Tok where
  | ident (name : String)
  | num (n : Nat)
  | str (s : String)
  | punct (p : String)
  | lbrace
  | rbrace
  deriving DecidableEq, Repr

/-- The right-hand side of a `#define`: `params = none` for an object-like definition,
`some ps` for a function-like one, and the replacement list. -/
structure MacroDef where
  params : Option (List String)
  body : List Tok
  deriving DecidableEq, Repr

/-- The directives that occur in `swt.h`. -/
inductive Directive where
  | ifNotDefined (name : String)
  | ifDefined (name : String)
  | elseGroup
  | endif
  | define (name : String) (d : MacroDef)
  | includeFile (file : String)
  deriving DecidableEq, Repr

/-- One directive line of the header; `live = false` when the source keeps the line
inside a comment. -/
structure Line where
  live : Bool
  dir : Directive
  deriving DecidableEq, Repr

/-- Replacement list of line 28: `fprintf(stderr, func);`. -/
def traceBody : List Tok :=
  [.ident "fprintf", .punct "(", .ident "stderr", .punct ",", .ident "func", .punct ")",
   .punct ";"]

/-- Replacement list of lines 35-41, the null guard. -/
def guardBody : List Tok :=
  [.ident "if", .punct "(", .ident "address", .punct "==", .num 0, .punct ")", .lbrace,
     .ident "jclass", .ident "clazz", .punct "=",
       .punct "(", .punct "*", .ident "env", .punct ")", .punct "->", .ident "FindClass",
       .punct "(", .ident "env", .punct ",", .str "org/eclipse/swt/SWTError", .punct ")",
       .punct ";",
     .ident "if", .punct "(", .ident "clazz", .punct "!=", .ident "NULL", .punct ")", .lbrace,
       .punct "(", .punct "*", .ident "env", .punct ")", .punct "->", .ident "ThrowNew",
       .punct "(", .ident "env", .punct ",", .ident "clazz", .punct ",",
       .str "Argument cannot be NULL", .punct ")", .punct ";",
     .rbrace,
     .ident "return", .punct ";",
   .rbrace]

/-- The header `swt.h`, lines 14-49, one entry per directive line (lines 21 and 24 are
the two directives the source keeps commented out). -/
def swt_h : List Line :=
  [ ⟨true,  .ifNotDefined "INC_swt_H"⟩,                                                    -- 14
    ⟨true,  .define "INC_swt_H" ⟨none, []⟩⟩,                                          -- 15
    ⟨true,  .includeFile "jni.h"⟩,                                                   -- 17
    ⟨true,  .define "DEBUG_PRINTF" ⟨some ["x"], []⟩⟩,                                 -- 20
    ⟨false, .define "DEBUG_PRINTF" ⟨some ["x"], [.ident "printf", .ident "x", .punct ";"]⟩⟩, -- 21
    ⟨false, .define "DEBUG_CALL_PRINTS" ⟨none, []⟩⟩,                                  -- 24
    ⟨true,  .define "DEBUG_CHECK_NULL_EXCEPTIONS" ⟨none, []⟩⟩,                        -- 25
    ⟨true,  .ifDefined "DEBUG_CALL_PRINTS"⟩,                                             -- 27
    ⟨true,  .define "DEBUG_CALL" ⟨some ["func"], traceBody⟩⟩,                         -- 28
    ⟨true,  .elseGroup⟩,                                                             -- 29
    ⟨true,  .define "DEBUG_CALL" ⟨some ["func"], []⟩⟩,                                -- 30
    ⟨true,  .endif⟩,                                                                 -- 31
    ⟨true,  .ifDefined "DEBUG_CHECK_NULL_EXCEPTIONS"⟩,                                   -- 33
    ⟨true,  .define "DEBUG_CHECK_NULL" ⟨some ["env", "address"], guardBody⟩⟩,         -- 34-41
    ⟨true,  .elseGroup⟩,                                                             -- 42
    ⟨true,  .define "DEBUG_CHECK_NULL" ⟨some ["func"], []⟩⟩,                          -- 43
    ⟨true,  .endif⟩,                                                                 -- 44
    ⟨true,  .define "DECL_GLOB" ⟨some ["pSym"], []⟩⟩,                                 -- 46
    ⟨true,  .define "PGLOB" ⟨some ["x"], [.ident "x"]⟩⟩,                              -- 47
    ⟨true,  .endif⟩ ]                                                                -- 49

/-- The definition in force for a name: the most recent `#define` comes first. -/
def lookupDef : List (String × MacroDef) → String → Option MacroDef
  | [], _ => none
  | (n, d) :: rest, name => if n = name then some d else lookupDef rest name

/-- Preprocessor state: the definitions made so far and, for each open conditional, whether
its current group is taken. -/
structure PPState where
  defs : List (String × MacroDef)
  conds : List Bool
  deriving DecidableEq, Repr

/-- Lines are processed only while every open conditional is in a taken group. -/
def PPState.active (st : PPState) : Bool := st.conds.all id

/-- Effect of one directive. -/
def directiveStep (st : PPState) : Directive → PPState
  | .ifDefined n => ⟨st.defs, (lookupDef st.defs n).isSome :: st.conds⟩
  | .ifNotDefined n => ⟨st.defs, (lookupDef st.defs n).isNone :: st.conds⟩
  | .elseGroup =>
      match st.conds with
      | [] => st
      | c :: cs => ⟨st.defs, (!c) :: cs⟩
  | .endif => ⟨st.defs, st.conds.tail⟩
  | .define n d => if st.active then ⟨(n, d) :: st.defs, st.conds⟩ else st
  | .includeFile _ => st

/-- Effect of one header line: a line inside a comment is no directive at all. -/
def lineStep (st : PPState) (l : Line) : PPState :=
  if l.live then directiveStep st l.dir else st

/-- The definitions in force after the header, starting from the names defined on the
compiler command line (`-DNAME`, which defines `NAME` as `1`). -/
def preprocess (predefined : List String) (hdr : List Line) : List (String × MacroDef) :=
  (hdr.foldl lineStep ⟨predefined.map (fun n => (n, ⟨none, [.num 1]⟩)), []⟩).defs

/-- The header with the `#define name` lines taken out of their comment. -/
def uncomment (name : String) (hdr : List Line) : List Line :=
  hdr.map fun l =>
    match l.dir with
    | .define n _ => if n = name then ⟨true, l.dir⟩ else l
    | _ => l

/-- The header with the `#define name` lines put inside a comment. -/
def commentOut (name : String) (hdr : List Line) : List Line :=
  hdr.map fun l =>
    match l.dir with
    | .define n _ => if n = name then ⟨false, l.dir⟩ else l
    | _ => l

/-- The header with the two flag lines 24 and 25 set as asked; the source is
`configured false true`. -/
def configured (callPrints nullChecks : Bool) : List Line :=
  let h1 := if callPrints then uncomment "DEBUG_CALL_PRINTS" swt_h
            else commentOut "DEBUG_CALL_PRINTS" swt_h
  if nullChecks then uncomment "DEBUG_CHECK_NULL_EXCEPTIONS" h1
  else commentOut "DEBUG_CHECK_NULL_EXCEPTIONS" h1

/-- Why an invocation cannot be replaced. -/
inductive PPError where
  | notDefined
  | notFunctionLike
  | arity (takes passed : Nat)
  deriving DecidableEq, Repr

/-- The argument bound to parameter `x`, when `x` is a parameter. -/
def argFor : List String → List (List Tok) → String → Option (List Tok)
  | p :: ps, a :: as, x => if p = x then some a else argFor ps as x
  | _, _, _ => none

/-- Parameter substitution: every identifier of the replacement list that names a
parameter is replaced by the tokens of its argument. -/
def substitute (params : List String) (args : List (List Tok)) : List Tok → List Tok
  | [] => []
  | .ident x :: rest =>
      (match argFor params args x with
       | some a => a
       | none => [.ident x]) ++ substitute params args rest
  | t :: rest => t :: substitute params args rest

/-- Replacement of the invocation `name(args)`: the number of arguments must equal the
number of parameters (C99 6.10.3p4), then the parameters are substituted.  `args` are the
arguments as they are substituted, that is after their own replacement (C99 6.10.3.1). -/
def invoke (defs : List (String × MacroDef)) (name : String) (args : List (List Tok)) :
    Except PPError (List Tok) :=
  match lookupDef defs name with
  | none => .error .notDefined
  | some ⟨none, _⟩ => .error .notFunctionLike
  | some ⟨some ps, body⟩ =>
      if ps.length = args.length then .ok (substitute ps args body)
      else .error (.arity ps.length args.length)

/-- The tokens of the program text `before name(args) after` once the invocation is
replaced; the text is rejected when the invocation is. -/
def replaceAt (defs : List (String × MacroDef)) (before : List Tok) (name : String)
    (args : List (List Tok)) (after : List Tok) : Except PPError (List Tok) :=
  match invoke defs name args with
  | .ok r => .ok (before ++ r ++ after)
  | .error e => .error e

/-! ## Execution layer -/

/-- A `jclass` reference; `NULL` is the reference `0`. -/
abbrev jclass := Nat

/-- The `jint` result of a JNI function. -/
abbrev jint := Int

/-- The null reference. -/
def NULL : jclass := 0

/-- The two entries of the `JNIEnv` function table (declared in `jni.h`, outside the
library) that the guard reaches through `(*env)->`, acting on the state `σ` of the Java
VM.  The header only calls them, so they are parameters of the development. -/
structure JNIEnv (σ : Type) where
  FindClass : String → σ → jclass × σ
  ThrowNew : jclass → String → σ → jint × σ

/-- How a statement hands control on: to the statement after it, or out of the enclosing
function by `return;` (no value). -/
inductive Flow where
  | next
  | returned
  deriving DecidableEq, Repr

/-- A statement over the state `σ`. -/
abbrev Stmt (σ : Type) := σ → Flow × σ

/-- The empty statement, what an empty replacement list leaves at a call site. -/
def skip {σ : Type} : Stmt σ := fun s => (Flow.next, s)

/-- C sequencing `first rest`: `rest` runs only when `first` falls through. -/
def andThen {σ : Type} (first rest : Stmt σ) : Stmt σ := fun s =>
  match first s with
  | (Flow.next, s1) => rest s1
  | (Flow.returned, s1) => (Flow.returned, s1)

/-- The statement `DEBUG_CHECK_NULL(env, address)` expands to when
`DEBUG_CHECK_NULL_EXCEPTIONS` is defined (lines 34-41):
```
if (address == 0) {
    jclass clazz = (*env)->FindClass(env, "org/eclipse/swt/SWTError");
    if (clazz != NULL) {
        (*env)->ThrowNew(env, clazz, "Argument cannot be NULL");
    }
    return;
}
```
-/
def DEBUG_CHECK_NULL {σ : Type} (env : JNIEnv σ) (address : Int) : Stmt σ := fun s =>
  if address = 0 then
    let found := env.FindClass "org/eclipse/swt/SWTError" s
    let clazz := found.1
    let s1 := found.2
    let s2 := if clazz ≠ NULL then (env.ThrowNew clazz "Argument cannot be NULL" s1).2 else s1
    (Flow.returned, s2)
  else
    (Flow.next, s)

/-- One call made through the function table, with its result. -/
inductive JNICall where
  | FindClass (name : String) (result : jclass)
  | ThrowNew (clazz : jclass) (message : String) (result : jint)
  deriving DecidableEq, Repr

/-- The function table `env` observed: every call is appended, in order, to a log kept
next to the VM state.  The behaviour on the VM state is that of `env`. -/
def logged {σ : Type} (env : JNIEnv σ) : JNIEnv (σ × List JNICall) where
  FindClass name st :=
    let r := env.FindClass name st.1
    (r.1, (r.2, st.2 ++ [JNICall.FindClass name r.1]))
  ThrowNew clazz message st :=
    let r := env.ThrowNew clazz message st.1
    (r.1, (r.2, st.2 ++ [JNICall.ThrowNew clazz message r.1]))

/-- The function table `env` with the `jint` result of `ThrowNew` replaced through `f`. -/
def withThrowNewResult {σ : Type} (f : jint → jint) (env : JNIEnv σ) : JNIEnv σ where
  FindClass := env.FindClass
  ThrowNew clazz message s := (f (env.ThrowNew clazz message s).1, (env.ThrowNew clazz message s).2)

/-- A small Java VM for concrete runs: its state is the pending exception, if any;
`FindClass` resolves the names in `loaded` to the reference `7`, `ThrowNew` makes the
exception pending and reports success. -/
def sampleVM (loaded : List String) : JNIEnv (Option (jclass × String)) where
  FindClass name s := (if name ∈ loaded then 7 else NULL, s)
  ThrowNew clazz message _ := (0, some (clazz, message))

/-- The output of C's `fprintf(stream, format)` called with no argument after the format
(C99 7.19.6.1): ordinary characters are copied, `%%` writes one `%`, and any other
conversion specification asks for an argument that is not there, which C leaves
undefined (`none`). -/
def fprintfNoArgs : List Char → Option (List Char)
  | [] => some []
  | '%' :: '%' :: rest => (fprintfNoArgs rest).map ('%' :: ·)
  | '%' :: _ => none
  | c :: rest => (fprintfNoArgs rest).map (c :: ·)

/-- The statement `DEBUG_CALL(func)` expands to when `DEBUG_CALL_PRINTS` is defined
(line 28): `fprintf(stderr, func);`, over the characters written to `stderr` so far.
The `int` result of `fprintf` is discarded. -/
def DEBUG_CALL (func : String) (stderr : List Char) : Option (Flow × List Char) :=
  (fprintfNoArgs func.toList).map fun out => (Flow.next, stderr ++ out)

/-! ## Lemmas on the two layers -/

theorem lookup_DEBUG_PRINTF (callPrints nullChecks : Bool) :
    lookupDef (preprocess [] (configured callPrints nullChecks)) "DEBUG_PRINTF"
      = some ⟨some ["x"], []⟩ := by
  cases callPrints <;> cases nullChecks <;> decide

theorem lookup_DEBUG_CALL (callPrints nullChecks : Bool) :
    lookupDef (preprocess [] (configured callPrints nullChecks)) "DEBUG_CALL"
      = some ⟨some ["func"], if callPrints then traceBody else []⟩ := by
  cases callPrints <;> cases nullChecks <;> decide

theorem lookup_DEBUG_CHECK_NULL (callPrints nullChecks : Bool) :
    lookupDef (preprocess [] (configured callPrints nullChecks)) "DEBUG_CHECK_NULL"
      = some (if nullChecks then ⟨some ["env", "address"], guardBody⟩
              else ⟨some ["func"], []⟩) := by
  cases callPrints <;> cases nullChecks <;> decide

theorem lookup_DECL_GLOB (callPrints nullChecks : Bool) :
    lookupDef (preprocess [] (configured callPrints nullChecks)) "DECL_GLOB"
      = some ⟨some ["pSym"], []⟩ := by
  cases callPrints <;> cases nullChecks <;> decide

theorem lookup_PGLOB (callPrints nullChecks : Bool) :
    lookupDef (preprocess [] (configured callPrints nullChecks)) "PGLOB"
      = some ⟨some ["x"], [.ident "x"]⟩ := by
  cases callPrints <;> cases nullChecks <;> decide

/-- An invocation with as many arguments as parameters is replaced by the substituted
replacement list. -/
theorem invoke_of_lookup (defs : List (String × MacroDef)) (name : String)
    (ps : List String) (body : List Tok) (args : List (List Tok))
    (hdef : lookupDef defs name = some ⟨some ps, body⟩) (hlen : ps.length = args.length) :
    invoke defs name args = .ok (substitute ps args body) := by
  simp [invoke, hdef, hlen]

/-- With line 25 in force, the call site `DEBUG_CHECK_NULL(env, address)` is replaced by
the guard of lines 35-41. -/
theorem invoke_DEBUG_CHECK_NULL_enabled (callPrints : Bool) :
    invoke (preprocess [] (configured callPrints true)) "DEBUG_CHECK_NULL"
      [[.ident "env"], [.ident "address"]] = .ok guardBody := by
  have hdef := lookup_DEBUG_CHECK_NULL callPrints true
  simp only [if_true] at hdef
  rw [invoke_of_lookup _ "DEBUG_CHECK_NULL" ["env", "address"] guardBody _ hdef rfl]
  rfl

/-- With `-DDEBUG_CALL_PRINTS` on the command line and the header as it is, `DEBUG_CALL`
is the definition of line 28. -/
theorem lookup_DEBUG_CALL_predefined :
    lookupDef (preprocess ["DEBUG_CALL_PRINTS"] swt_h) "DEBUG_CALL"
      = some ⟨some ["func"], traceBody⟩ := by
  decide

/-- An invocation with another number of arguments is rejected. -/
theorem invoke_arity (defs : List (String × MacroDef)) (name : String)
    (ps : List String) (body : List Tok) (args : List (List Tok))
    (hdef : lookupDef defs name = some ⟨some ps, body⟩) (hlen : ps.length ≠ args.length) :
    invoke defs name args = .error (.arity ps.length args.length) := by
  simp [invoke, hdef, hlen]

/-- The guard on a null address: the lookup, the conditional throw, then `return;`. -/
theorem DEBUG_CHECK_NULL_zero {σ : Type} (env : JNIEnv σ) (s : σ) :
    DEBUG_CHECK_NULL env 0 s
      = (Flow.returned,
          if (env.FindClass "org/eclipse/swt/SWTError" s).1 ≠ NULL then
            (env.ThrowNew (env.FindClass "org/eclipse/swt/SWTError" s).1
              "Argument cannot be NULL" (env.FindClass "org/eclipse/swt/SWTError" s).2).2
          else (env.FindClass "org/eclipse/swt/SWTError" s).2) := by
  simp [DEBUG_CHECK_NULL]

/-- The observed guard on a null address: the log grows by the `FindClass` call and, when
the class is not `NULL`, by the `ThrowNew` call. -/
theorem DEBUG_CHECK_NULL_logged_zero {σ : Type} (env : JNIEnv σ) (s : σ)
    (log : List JNICall) :
    DEBUG_CHECK_NULL (logged env) 0 (s, log)
      = (Flow.returned,
          if (env.FindClass "org/eclipse/swt/SWTError" s).1 ≠ NULL then
            ((env.ThrowNew (env.FindClass "org/eclipse/swt/SWTError" s).1
                "Argument cannot be NULL" (env.FindClass "org/eclipse/swt/SWTError" s).2).2,
             log ++ [JNICall.FindClass "org/eclipse/swt/SWTError"
                       (env.FindClass "org/eclipse/swt/SWTError" s).1,
                     JNICall.ThrowNew (env.FindClass "org/eclipse/swt/SWTError" s).1
                       "Argument cannot be NULL"
                       (env.ThrowNew (env.FindClass "org/eclipse/swt/SWTError" s).1
                         "Argument cannot be NULL"
                         (env.FindClass "org/eclipse/swt/SWTError" s).2).1])
          else
            ((env.FindClass "org/eclipse/swt/SWTError" s).2,
             log ++ [JNICall.FindClass "org/eclipse/swt/SWTError"
                       (env.FindClass "org/eclipse/swt/SWTError" s).1])) := by
  by_cases hc : (env.FindClass "org/eclipse/swt/SWTError" s).1 = NULL
  · simp [DEBUG_CHECK_NULL, logged, hc]
  · simp [DEBUG_CHECK_NULL, logged, hc]

/-- The guard on a non-null address is the empty statement. -/
theorem DEBUG_CHECK_NULL_nonzero {σ : Type} (env : JNIEnv σ) (address : Int)
    (h : address ≠ 0) : DEBUG_CHECK_NULL env address = skip := by
  funext s
  simp [DEBUG_CHECK_NULL, skip, h]

/-- Without a `%` in the format, `fprintf` copies the format. -/
theorem fprintfNoArgs_plain (l : List Char) (h : '%' ∉ l) : fprintfNoArgs l = some l := by
  induction l with
  | nil => rfl
  | cons c rest ih =>
    have hc : c ≠ '%' := fun e => h (by simp [e])
    have hr : '%' ∉ rest := fun e => h (by simp [e])
    unfold fprintfNoArgs
    split
    · simp_all
    · simp_all
    · simp_all
    · simp_all

/-! ## The null guard, checks enabled (lines 33-41) -/

/-- C1. In the default build the call site `DEBUG_CHECK_NULL(env, address)` is replaced by
the guard of lines 35-41.  With the checks enabled, on a null address and a VM in which
the lookup of `org/eclipse/swt/SWTError` succeeds, the guard makes exactly two calls
through the function table, `FindClass` on that name and then one `ThrowNew` on the class that
`FindClass` returned with the message `Argument cannot be NULL`, leaves the VM as that
`ThrowNew` left it, and executes `return;`: whatever statement follows the guard in the
enclosing function does not run. -/
theorem DEBUG_CHECK_NULL_null_throws {σ : Type} (env : JNIEnv σ) (address : Int) (s : σ)
    (log : List JNICall) (rest : Stmt (σ × List JNICall))
    (hnull : address = 0)
    (hfound : (env.FindClass "org/eclipse/swt/SWTError" s).1 ≠ NULL) :
    invoke (preprocess [] swt_h) "DEBUG_CHECK_NULL" [[.ident "env"], [.ident "address"]]
        = .ok guardBody
      ∧ DEBUG_CHECK_NULL (logged env) address (s, log)
        = (Flow.returned,
            ((env.ThrowNew (env.FindClass "org/eclipse/swt/SWTError" s).1
                "Argument cannot be NULL" (env.FindClass "org/eclipse/swt/SWTError" s).2).2,
             log ++ [JNICall.FindClass "org/eclipse/swt/SWTError"
                       (env.FindClass "org/eclipse/swt/SWTError" s).1,
                     JNICall.ThrowNew (env.FindClass "org/eclipse/swt/SWTError" s).1
                       "Argument cannot be NULL"
                       (env.ThrowNew (env.FindClass "org/eclipse/swt/SWTError" s).1
                         "Argument cannot be NULL"
                         (env.FindClass "org/eclipse/swt/SWTError" s).2).1]))
      ∧ andThen (DEBUG_CHECK_NULL (logged env) address) rest (s, log)
          = DEBUG_CHECK_NULL (logged env) address (s, log) := by
  subst hnull
  have hrun := DEBUG_CHECK_NULL_logged_zero env s log
  rw [if_pos hfound] at hrun
  exact ⟨invoke_DEBUG_CHECK_NULL_enabled false, hrun, by simp only [andThen, hrun]⟩

/-- C1 at a concrete VM that knows the class: the run from an empty log. -/
theorem DEBUG_CHECK_NULL_null_throws_witness :
    (0 : Int) = 0
      ∧ ((sampleVM ["org/eclipse/swt/SWTError"]).FindClass "org/eclipse/swt/SWTError" none).1
          ≠ NULL
      ∧ DEBUG_CHECK_NULL (logged (sampleVM ["org/eclipse/swt/SWTError"])) 0 (none, [])
          = (Flow.returned,
              (some (7, "Argument cannot be NULL"),
               [JNICall.FindClass "org/eclipse/swt/SWTError" 7,
                JNICall.ThrowNew 7 "Argument cannot be NULL" 0])) :=
  ⟨rfl, by decide,
   (DEBUG_CHECK_NULL_null_throws (sampleVM ["org/eclipse/swt/SWTError"]) 0 none [] skip rfl
      (by decide)).2.1⟩

/-- C2. With the checks enabled, on a non-null address the guard is the empty statement:
no call goes through the function table (the log is unchanged), the VM state is
unchanged, control falls through to the statement after the guard, and any other
non-null address gives the same statement. -/
theorem DEBUG_CHECK_NULL_nonnull_noop {σ : Type} (env : JNIEnv σ) (address : Int) (s : σ)
    (log : List JNICall) (h : address ≠ 0) :
    DEBUG_CHECK_NULL (logged env) address (s, log) = (Flow.next, (s, log))
      ∧ DEBUG_CHECK_NULL env address = skip
      ∧ (∀ rest : Stmt σ, andThen (DEBUG_CHECK_NULL env address) rest = rest)
      ∧ (∀ other : Int, other ≠ 0 →
          DEBUG_CHECK_NULL env other = DEBUG_CHECK_NULL env address) := by
  refine ⟨?_, DEBUG_CHECK_NULL_nonzero env address h, ?_, ?_⟩
  · rw [DEBUG_CHECK_NULL_nonzero (logged env) address h]
    rfl
  · intro rest
    rw [DEBUG_CHECK_NULL_nonzero env address h]
    rfl
  · intro other ho
    rw [DEBUG_CHECK_NULL_nonzero env address h, DEBUG_CHECK_NULL_nonzero env other ho]

/-- C2 at the address `4096` on a VM with a pending exception and a non-empty log. -/
theorem DEBUG_CHECK_NULL_nonnull_noop_witness :
    (4096 : Int) ≠ 0
      ∧ DEBUG_CHECK_NULL (logged (sampleVM [])) 4096
            (some (7, "pending"), [JNICall.FindClass "java/lang/Object" 7])
          = (Flow.next, (some (7, "pending"), [JNICall.FindClass "java/lang/Object" 7])) :=
  ⟨by decide,
   (DEBUG_CHECK_NULL_nonnull_noop (sampleVM []) 4096 (some (7, "pending"))
      [JNICall.FindClass "java/lang/Object" 7] (by decide)).1⟩

/-- C3. With the checks enabled, on a null address and a VM in which the lookup of the
error class fails (`FindClass` returns `NULL`), the only call the guard makes is that
`FindClass`: `ThrowNew` is not called, and the VM is left exactly as `FindClass` left it.
The guard still executes `return;`. -/
theorem DEBUG_CHECK_NULL_lookup_failure {σ : Type} (env : JNIEnv σ) (address : Int) (s : σ)
    (log : List JNICall)
    (hnull : address = 0)
    (hmissing : (env.FindClass "org/eclipse/swt/SWTError" s).1 = NULL) :
    DEBUG_CHECK_NULL (logged env) address (s, log)
        = (Flow.returned,
            ((env.FindClass "org/eclipse/swt/SWTError" s).2,
             log ++ [JNICall.FindClass "org/eclipse/swt/SWTError" NULL]))
      ∧ (∀ clazz message result,
          JNICall.ThrowNew clazz message result
            ∉ (DEBUG_CHECK_NULL (logged env) address (s, [])).2.2) := by
  subst hnull
  have hrun := fun l => DEBUG_CHECK_NULL_logged_zero env s l
  simp only [hmissing, ne_eq, not_true_eq_false, if_false] at hrun
  refine ⟨hrun log, ?_⟩
  intro clazz message result
  rw [hrun []]
  simp

/-- C3 at a concrete VM that does not know the class. -/
theorem DEBUG_CHECK_NULL_lookup_failure_witness :
    (0 : Int) = 0
      ∧ ((sampleVM []).FindClass "org/eclipse/swt/SWTError" none).1 = NULL
      ∧ DEBUG_CHECK_NULL (logged (sampleVM [])) 0 (none, [])
          = (Flow.returned, (none, [JNICall.FindClass "org/eclipse/swt/SWTError" NULL])) :=
  ⟨rfl, by decide,
   (DEBUG_CHECK_NULL_lookup_failure (sampleVM []) 0 none [] rfl (by decide)).1⟩

/-- C4. With the checks enabled, for every function table (whatever its `FindClass`
answers), every address and every VM state, the guard hands control out of the enclosing
function by `return;` (which carries no value) exactly when the address is null; the
statement that follows the guard is then not run, and it is run from the unchanged state
otherwise. -/
theorem DEBUG_CHECK_NULL_returns_iff_null {σ : Type} (env : JNIEnv σ) (address : Int)
    (s : σ) (rest : Stmt σ) :
    ((DEBUG_CHECK_NULL env address s).1 = Flow.returned ↔ address = 0)
      ∧ andThen (DEBUG_CHECK_NULL env address) rest s
          = (if address = 0 then DEBUG_CHECK_NULL env address s else rest s) := by
  by_cases h : address = 0
  · subst h
    simp [andThen, DEBUG_CHECK_NULL_zero]
  · simp [andThen, DEBUG_CHECK_NULL_nonzero env address h, skip, h]

/-- C10. In every run of the enabled guard the calls through the function table are one
of three sequences: none (address not null); one `FindClass` on
`org/eclipse/swt/SWTError` that returned `NULL`; or that `FindClass` returning a
non-`NULL` class followed by one `ThrowNew` on that very class.  The `jint` that
`ThrowNew` returns is discarded: changing it changes nothing in what the guard does. -/
theorem DEBUG_CHECK_NULL_call_order {σ : Type} (env : JNIEnv σ) (address : Int) (s : σ)
    (log : List JNICall) (f : jint → jint) :
    ((DEBUG_CHECK_NULL (logged env) address (s, log)).2.2 = log
        ∨ ((DEBUG_CHECK_NULL (logged env) address (s, log)).2.2
              = log ++ [JNICall.FindClass "org/eclipse/swt/SWTError" NULL]
            ∧ (env.FindClass "org/eclipse/swt/SWTError" s).1 = NULL)
        ∨ (∃ clazz result,
            (DEBUG_CHECK_NULL (logged env) address (s, log)).2.2
              = log ++ [JNICall.FindClass "org/eclipse/swt/SWTError" clazz,
                        JNICall.ThrowNew clazz "Argument cannot be NULL" result]
            ∧ clazz = (env.FindClass "org/eclipse/swt/SWTError" s).1
            ∧ clazz ≠ NULL))
      ∧ DEBUG_CHECK_NULL (withThrowNewResult f env) address s
          = DEBUG_CHECK_NULL env address s := by
  by_cases h : address = 0
  · subst h
    refine ⟨?_, ?_⟩
    · by_cases hc : (env.FindClass "org/eclipse/swt/SWTError" s).1 = NULL
      · right; left
        rw [DEBUG_CHECK_NULL_logged_zero]
        simp [hc]
      · right; right
        refine ⟨(env.FindClass "org/eclipse/swt/SWTError" s).1,
          (env.ThrowNew (env.FindClass "org/eclipse/swt/SWTError" s).1
            "Argument cannot be NULL" (env.FindClass "org/eclipse/swt/SWTError" s).2).1,
          ?_, rfl, hc⟩
        rw [DEBUG_CHECK_NULL_logged_zero, if_pos hc]
    · simp [DEBUG_CHECK_NULL_zero, withThrowNewResult]
  · refine ⟨Or.inl ?_, ?_⟩
    · rw [DEBUG_CHECK_NULL_nonzero (logged env) address h]
      rfl
    · rw [DEBUG_CHECK_NULL_nonzero env address h,
        DEBUG_CHECK_NULL_nonzero (withThrowNewResult f env) address h]

/-! ## The configuration and the empty definitions -/

/-- C5, evaluated on the code.  With line 25 commented out the definition in force is
line 43, `#define DEBUG_CHECK_NULL(func)`, which takes one parameter: an invocation with
the two arguments `(env, address)` is rejected for its number of arguments, and so is the
program text around it.  Only a one-argument invocation reaches the empty replacement
list. -/
theorem DEBUG_CHECK_NULL_disabled_rejects_two_arguments (callPrints : Bool)
    (env address before after : List Tok) :
    lookupDef (preprocess [] (configured callPrints false)) "DEBUG_CHECK_NULL"
        = some ⟨some ["func"], []⟩
      ∧ invoke (preprocess [] (configured callPrints false)) "DEBUG_CHECK_NULL"
          [env, address] = .error (.arity 1 2)
      ∧ replaceAt (preprocess [] (configured callPrints false)) before "DEBUG_CHECK_NULL"
          [env, address] after = .error (.arity 1 2)
      ∧ invoke (preprocess [] (configured callPrints false)) "DEBUG_CHECK_NULL" [env]
          = .ok [] := by
  have hdef := lookup_DEBUG_CHECK_NULL callPrints false
  simp only [Bool.false_eq_true, if_false] at hdef
  have hbad : invoke (preprocess [] (configured callPrints false)) "DEBUG_CHECK_NULL"
      [env, address] = .error (.arity 1 2) :=
    invoke_arity _ "DEBUG_CHECK_NULL" ["func"] [] [env, address] hdef (by simp)
  refine ⟨hdef, hbad, ?_, ?_⟩
  · simp only [replaceAt, hbad]
  · rw [invoke_of_lookup _ "DEBUG_CHECK_NULL" ["func"] [] [env] hdef rfl]
    rfl

/-- C6. Preprocessing the header as it is, with nothing defined on the command line:
`DEBUG_CHECK_NULL_EXCEPTIONS` is defined, `DEBUG_CALL_PRINTS` is not, `DEBUG_PRINTF` and
`DEBUG_CALL` have an empty replacement list, and `DEBUG_CHECK_NULL` is the two-parameter
definition whose replacement list is the guard of lines 35-41. -/
theorem default_configuration :
    configured false true = swt_h
      ∧ lookupDef (preprocess [] swt_h) "DEBUG_CHECK_NULL_EXCEPTIONS" = some ⟨none, []⟩
      ∧ lookupDef (preprocess [] swt_h) "DEBUG_CALL_PRINTS" = none
      ∧ lookupDef (preprocess [] swt_h) "DEBUG_PRINTF" = some ⟨some ["x"], []⟩
      ∧ lookupDef (preprocess [] swt_h) "DEBUG_CALL" = some ⟨some ["func"], []⟩
      ∧ lookupDef (preprocess [] swt_h) "DEBUG_CHECK_NULL"
          = some ⟨some ["env", "address"], guardBody⟩
      ∧ guardBody ≠ [] := by
  decide

/-- C7. With `DEBUG_CALL_PRINTS` not defined, `DEBUG_CALL(arg)` is replaced by no token
at all, and so is `DEBUG_PRINTF(arg)` in every configuration of the two flags, whatever
the argument: the argument's tokens do not reach the program, the text around the
invocation is the text without it, and the empty statement that is left changes neither
the state nor the flow of control of what surrounds it. -/
theorem debug_stubs_expand_to_nothing (callPrints nullChecks : Bool)
    (arg before after : List Tok) :
    invoke (preprocess [] (configured false nullChecks)) "DEBUG_CALL" [arg] = .ok []
      ∧ invoke (preprocess [] (configured callPrints nullChecks)) "DEBUG_PRINTF" [arg]
          = .ok []
      ∧ replaceAt (preprocess [] (configured false nullChecks)) before "DEBUG_CALL" [arg]
          after = .ok (before ++ after)
      ∧ replaceAt (preprocess [] (configured callPrints nullChecks)) before "DEBUG_PRINTF"
          [arg] after = .ok (before ++ after)
      ∧ (∀ (σ : Type) (first rest : Stmt σ),
          andThen skip rest = rest ∧ andThen first skip = first) := by
  have hcall := lookup_DEBUG_CALL false nullChecks
  simp only [Bool.false_eq_true, if_false] at hcall
  have h1 : invoke (preprocess [] (configured false nullChecks)) "DEBUG_CALL" [arg]
      = .ok [] := by
    rw [invoke_of_lookup _ "DEBUG_CALL" ["func"] [] [arg] hcall rfl]
    rfl
  have h2 : invoke (preprocess [] (configured callPrints nullChecks)) "DEBUG_PRINTF" [arg]
      = .ok [] := by
    rw [invoke_of_lookup _ "DEBUG_PRINTF" ["x"] [] [arg]
      (lookup_DEBUG_PRINTF callPrints nullChecks) rfl]
    rfl
  refine ⟨h1, h2, ?_, ?_, ?_⟩
  · simp only [replaceAt, h1, List.append_nil]
  · simp only [replaceAt, h2, List.append_nil]
  · intro σ first rest
    refine ⟨rfl, ?_⟩
    funext s
    simp only [andThen, skip]
    rcases hfs : first s with ⟨flow, s1⟩
    cases flow <;> rfl

/-- C9. In every configuration of the two flags, `PGLOB(x)` is replaced by the tokens of
its argument `x`, unchanged, so replacing `PGLOB` around the result of `PGLOB(x)` gives
`x` again; and `DECL_GLOB(pSym)` is replaced by no token at all, whatever `pSym`. -/
theorem global_symbol_stubs (callPrints nullChecks : Bool) (x pSym before after : List Tok) :
    invoke (preprocess [] (configured callPrints nullChecks)) "PGLOB" [x] = .ok x
      ∧ (invoke (preprocess [] (configured callPrints nullChecks)) "PGLOB" [x] >>= fun y =>
          invoke (preprocess [] (configured callPrints nullChecks)) "PGLOB" [y]) = .ok x
      ∧ invoke (preprocess [] (configured callPrints nullChecks)) "DECL_GLOB" [pSym] = .ok []
      ∧ replaceAt (preprocess [] (configured callPrints nullChecks)) before "DECL_GLOB"
          [pSym] after = .ok (before ++ after) := by
  have hp : ∀ y : List Tok,
      invoke (preprocess [] (configured callPrints nullChecks)) "PGLOB" [y] = .ok y := by
    intro y
    rw [invoke_of_lookup _ "PGLOB" ["x"] [.ident "x"] [y]
      (lookup_PGLOB callPrints nullChecks) rfl]
    simp [substitute, argFor]
  have hd : invoke (preprocess [] (configured callPrints nullChecks)) "DECL_GLOB" [pSym]
      = .ok [] := by
    rw [invoke_of_lookup _ "DECL_GLOB" ["pSym"] [] [pSym]
      (lookup_DECL_GLOB callPrints nullChecks) rfl]
    rfl
  refine ⟨hp x, ?_, hd, ?_⟩
  · rw [hp x]
    exact hp x
  · simp only [replaceAt, hd, List.append_nil]

/-! ## Call tracing enabled (line 28) -/

/-- C8 as stated fails: the label is the format of `fprintf`, and for the label `100%%`
the text written to `stderr` is `100%`, not the label. -/
theorem DEBUG_CALL_percent_counterexample :
    DEBUG_CALL "100%%" [] = some (Flow.next, "100%".toList)
      ∧ DEBUG_CALL "100%%" [] ≠ some (Flow.next, [] ++ "100%%".toList) := by
  decide

/-- C8, amended.  With `DEBUG_CALL_PRINTS` defined (line 24 taken out of its comment, or
`-DDEBUG_CALL_PRINTS` on the command line), `DEBUG_CALL(label)` is replaced by the
statement `fprintf(stderr, label);`, with the label as the format; for every label that
holds no `%` character the text appended to `stderr` is exactly the label, there is no
error condition and control falls through to the next statement. -/
theorem DEBUG_CALL_writes_plain_label (nullChecks : Bool) (label : String)
    (stderr : List Char) (hplain : '%' ∉ label.toList) :
    invoke (preprocess [] (configured true nullChecks)) "DEBUG_CALL" [[.str label]]
        = .ok [.ident "fprintf", .punct "(", .ident "stderr", .punct ",", .str label,
               .punct ")", .punct ";"]
      ∧ invoke (preprocess ["DEBUG_CALL_PRINTS"] swt_h) "DEBUG_CALL" [[.str label]]
        = .ok [.ident "fprintf", .punct "(", .ident "stderr", .punct ",", .str label,
               .punct ")", .punct ";"]
      ∧ DEBUG_CALL label stderr = some (Flow.next, stderr ++ label.toList) := by
  have hcall := lookup_DEBUG_CALL true nullChecks
  simp only [if_true] at hcall
  refine ⟨?_, ?_, ?_⟩
  · rw [invoke_of_lookup _ "DEBUG_CALL" ["func"] traceBody [[.str label]] hcall rfl]
    simp [substitute, argFor, traceBody]
  · rw [invoke_of_lookup _ "DEBUG_CALL" ["func"] traceBody [[.str label]]
      lookup_DEBUG_CALL_predefined rfl]
    simp [substitute, argFor, traceBody]
  · simp only [DEBUG_CALL, fprintfNoArgs_plain _ hplain, Option.map_some']

/-- C8 amended, at the label `XtMalloc` followed by a newline. -/
theorem DEBUG_CALL_writes_plain_label_witness :
    '%' ∉ "XtMalloc\n".toList
      ∧ DEBUG_CALL "XtMalloc\n" "a".toList = some (Flow.next, "aXtMalloc\n".toList) :=
  ⟨by decide, (DEBUG_CALL_writes_plain_label true "XtMalloc\n" "a".toList (by decide)).2.2⟩

end SWT
